import Mathlib

/-!
Verification of the salesforce-mcp CSV import/report pipeline and the
rate-limiting middleware, as a shallow embedding of the JavaScript source.

JavaScript objects holding CSV rows / Salesforce records are modelled as
association lists `Row := List (String × String)`; property access is
first-match lookup, property assignment is update-in-place-or-append, and
`delete obj.k` removes the key.  Truthiness of a string-or-undefined value
is "present and non-empty".  Fallible external calls (the Salesforce query
and create operations, and the CSV parse) are modelled as `Except`-valued
oracles supplied through an environment record; a thrown exception is
`Except.error msg`.
-/

namespace SalesforceMcp

/-- A JavaScript object with string-valued properties (a parsed CSV row or a
candidate Salesforce record): an association list, looked up first-match. -/
abbrev Row := List (String × String)

/-- `obj[k]`: first-match lookup, `none` = `undefined`. -/
def getField : Row → String → Option String
  | [], _ => none
  | (k', v) :: rest, k => if k' = k then some v else getField rest k

/-- `obj[k] = v`: overwrite the first occurrence of `k` in place, or append. -/
def setField : Row → String → String → Row
  | [], k, v => [(k, v)]
  | (k', v') :: rest, k, v =>
      if k' = k then (k', v) :: rest else (k', v') :: setField rest k v

/-- `delete obj[k]`. -/
def removeField (r : Row) (k : String) : Row :=
  r.filter (fun p => decide (p.1 ≠ k))

/-- JavaScript truthiness of a string-or-undefined value. -/
def truthy : Option String → Bool
  | some s => decide (s ≠ "")
  | none => false

/-- JavaScript `v || dflt` for a string-or-undefined `v`. -/
def jsOr : Option String → String → String
  | some s, dflt => if s = "" then dflt else s
  | none, dflt => dflt

/-! ### `mapContactFields` (src/services/csvImport.js)

The source mutates one `contactRecord` object through five sequential
phases; each phase is a named function here, composed in source order. -/

/-- `{ LastName: csvContact.LastName || 'Unknown' }` — LastName is required. -/
def initialContactRecord (csvContact : Row) : Row :=
  [("LastName", jsOr (getField csvContact "LastName") "Unknown")]

/-- The fixed allow-list of other standard fields copied when truthy. -/
def standardFields : List String :=
  ["FirstName", "Email", "Phone", "MobilePhone", "Title", "Department", "Description"]

/-- `standardFields.forEach(field => { if (csvContact[field]) ... })`. -/
def withStandardFields (csvContact contactRecord : Row) : Row :=
  standardFields.foldl
    (fun acc field =>
      if truthy (getField csvContact field) then
        setField acc field ((getField csvContact field).getD "")
      else acc)
    contactRecord

/-- The mailing-address block: guarded by "any address field truthy", then one
conditional copy per address field. -/
def withAddressFields (c r : Row) : Row :=
  if truthy (getField c "MailingStreet") || truthy (getField c "MailingCity") ||
     truthy (getField c "MailingState") || truthy (getField c "MailingPostalCode") ||
     truthy (getField c "MailingCountry") then
    let r := if truthy (getField c "MailingStreet") then
               setField r "MailingStreet" ((getField c "MailingStreet").getD "") else r
    let r := if truthy (getField c "MailingCity") then
               setField r "MailingCity" ((getField c "MailingCity").getD "") else r
    let r := if truthy (getField c "MailingState") then
               setField r "MailingState" ((getField c "MailingState").getD "") else r
    let r := if truthy (getField c "MailingPostalCode") then
               setField r "MailingPostalCode" ((getField c "MailingPostalCode").getD "") else r
    let r := if truthy (getField c "MailingCountry") then
               setField r "MailingCountry" ((getField c "MailingCountry").getD "") else r
    r
  else r

/-- `if (csvContact.AccountName) contactRecord.AccountName = ...` — kept for
the account-resolution step, removed before submission. -/
def withAccountName (c r : Row) : Row :=
  if truthy (getField c "AccountName") then
    setField r "AccountName" ((getField c "AccountName").getD "")
  else r

/-- JS `key.endsWith('__c')`, computed on the character list. -/
def endsWithC (key : String) : Bool :=
  key.data.reverse.take 3 == ['c', '_', '_']

/-- `Object.keys(csvContact).forEach(key => { if (key.endsWith('__c')) ... })`
— custom fields are copied unconditionally (no truthiness check). -/
def withCustomFields (c r : Row) : Row :=
  (c.map Prod.fst).foldl
    (fun acc key =>
      if endsWithC key then setField acc key ((getField c key).getD "") else acc)
    r

/-- `mapContactFields(csvContact)`: the five phases in source order. -/
def mapContactFields (csvContact : Row) : Row :=
  withCustomFields csvContact
    (withAccountName csvContact
      (withAddressFields csvContact
        (withStandardFields csvContact (initialContactRecord csvContact))))

/-! ### Salesforce service oracles (src/services/salesforce.js)

`querySalesforce` and `createRecord` are network calls through jsforce; they
are modelled as deterministic oracles in an environment record.  `Except.error`
models a thrown exception. -/

/-- jsforce create result: `{ id, success, errors }`. -/
structure CreateResult where
  success : Bool
  id : String
  errors : List String
  deriving Repr, DecidableEq

/-- jsforce query result: the `records` property may be absent (`none`). -/
structure QueryResult where
  records : Option (List Row)
  deriving Repr, DecidableEq

/-- The Salesforce service as seen by the pipelines:
`query soql` models `querySalesforce(soql)` and
`create objectName record` models `createRecord(objectName, record)`. -/
structure SFEnv where
  query : String → Except String QueryResult
  create : String → Row → Except String CreateResult

/-! ### `findOrCreateAccount` (src/services/csvImport.js) -/

/-- `accountName.replace(/'/g, "\x5c'")`: escape every single quote, computed
on the character list. -/
def escapeQuotes (accountName : String) : String :=
  String.mk (accountName.data.foldr
    (fun ch acc => if ch = '\'' then '\\' :: '\'' :: acc else ch :: acc) [])

/-- The exact-name-match SOQL string built by `findOrCreateAccount`. -/
def accountQueryStr (accountName : String) : String :=
  "SELECT Id FROM Account WHERE Name = '" ++ escapeQuotes accountName ++ "'"

/-- `findOrCreateAccount(accountName)`: query by exact name; on a hit return
`records[0].Id`; otherwise create the account and return its id on reported
success; any exception or reported create failure yields `null` (`none`). -/
def findOrCreateAccount (env : SFEnv) (accountName : String) : Option String :=
  match env.query (accountQueryStr accountName) with
  | .error _ => none
  | .ok result =>
      match result.records with
      | some (rec :: _) => getField rec "Id"
      | _ =>
          match env.create "Account" [("Name", accountName)] with
          | .error _ => none
          | .ok createResult =>
              if createResult.success then some createResult.id else none

/-! ### The per-row body of `importContactsFromCSV` -/

/-- The record actually submitted for one CSV row: map the fields, and when
`contactRecord.AccountName` is truthy resolve the account, attach `AccountId`
when the resolution is truthy, and delete `AccountName`. -/
def buildContactRecord (env : SFEnv) (contact : Row) : Row :=
  let contactRecord := mapContactFields contact
  if truthy (getField contactRecord "AccountName") then
    let accountId := findOrCreateAccount env ((getField contactRecord "AccountName").getD "")
    let contactRecord :=
      if truthy accountId then setField contactRecord "AccountId" (accountId.getD "")
      else contactRecord
    removeField contactRecord "AccountName"
  else contactRecord

/-- JS `String.prototype.trim`, computed on the character list. -/
def jsTrim (s : String) : String :=
  String.mk (((s.data.dropWhile Char.isWhitespace).reverse.dropWhile
    Char.isWhitespace).reverse)

/-- `` `${contactRecord.FirstName || ''} ${contactRecord.LastName}`.trim() `` —
an absent `LastName` would render as the string `"undefined"`. -/
def displayName (contactRecord : Row) : String :=
  jsTrim (jsOr (getField contactRecord "FirstName") "" ++ " " ++
    ((getField contactRecord "LastName").getD "undefined"))

/-- `result.errors.join(', ')`. -/
def joinComma (errs : List String) : String :=
  String.intercalate ", " errs

/-- The three accumulator arrays of the import loop. -/
structure RowAcc where
  results : List CreateResult
  errors : List (Row × String)
  successfulRecords : List (String × String)
  deriving Repr, DecidableEq

/-- The empty accumulators at loop entry. -/
def emptyAcc : RowAcc := ⟨[], [], []⟩

/-- One iteration of `for (const contact of contacts)`: the try block maps the
row, resolves the account and calls create; a reported failure records the
mapped record, a thrown exception is caught and records the original row. -/
def processRow (env : SFEnv) (acc : RowAcc) (contact : Row) : RowAcc :=
  let contactRecord := buildContactRecord env contact
  match env.create "Contact" contactRecord with
  | .error e =>
      { acc with errors := acc.errors ++ [(contact, e)] }
  | .ok result =>
      if result.success then
        { acc with
          successfulRecords :=
            acc.successfulRecords ++ [(result.id, displayName contactRecord)],
          results := acc.results ++ [result] }
      else
        { acc with
          errors := acc.errors ++ [(contactRecord, joinComma result.errors)],
          results := acc.results ++ [result] }

/-- Aggregate result of an import run. -/
structure ImportResult where
  totalProcessed : Nat
  successful : Nat
  failed : Nat
  successfulRecords : List (String × String)
  errors : List (Row × String)
  deriving Repr, DecidableEq

/-- Environment of one `importContactsFromCSV(filePath)` call: the outcome of
parsing the CSV at that path, and the Salesforce service. -/
structure ImportEnv where
  parse : Except String (List Row)
  sf : SFEnv

/-- `importContactsFromCSV`: parse (an exception propagates through the outer
catch), run the row loop, delete the temporary file, return the aggregate.
The second component counts `fs.unlinkSync(filePath)` calls. -/
def importContactsFromCSV (env : ImportEnv) : Except String ImportResult × Nat :=
  match env.parse with
  | .error e => (.error e, 0)
  | .ok contacts =>
      let acc := contacts.foldl (processRow env.sf) emptyAcc
      (.ok { totalProcessed := contacts.length
             successful := acc.successfulRecords.length
             failed := acc.errors.length
             successfulRecords := acc.successfulRecords
             errors := acc.errors }, 1)

/-! ### `generateCsvReport` (src/services/csvReport.js) -/

/-- Successful report metadata (`success: true` branch). -/
structure ReportSuccess where
  filename : String
  filePath : String
  recordCount : Nat
  fields : List String
  query : String
  deriving Repr, DecidableEq

/-- Return value of `generateCsvReport`: the `{success:false, error, query}`
object or the success metadata. -/
inductive ReportResult where
  | failure (error : String) (query : String)
  | success (r : ReportSuccess)
  deriving Repr, DecidableEq

/-- Environment of one report call: the query oracle and the value of
`new Date().toISOString()` at the call. -/
structure ReportEnv where
  query : String → Except String QueryResult
  nowIso : String

/-- `timestamp = new Date().toISOString().replace(/[:.]/g, '-')`, computed on
the character list. -/
def reportTimestamp (nowIso : String) : String :=
  String.mk (nowIso.data.map (fun ch => if ch = ':' || ch = '.' then '-' else ch))

/-- `reportName.replace(/[^a-z0-9]/gi, '_')`, computed on the character list. -/
def sanitizeReportName (reportName : String) : String :=
  String.mk (reportName.data.map (fun ch => if ch.isAlphanum then ch else '_'))

/-- `generateCsvReport(soql, reportName, dir)`.  The second component is the
list of file paths written to disk (`writeCsvFile` is modelled as succeeding).
A query exception propagates through the outer catch. -/
def generateCsvReport (env : ReportEnv) (soql reportName dir : String) :
    Except String ReportResult × List String :=
  match env.query soql with
  | .error e => (.error e, [])
  | .ok queryResult =>
      match queryResult.records with
      | none =>
          (.ok (.failure "No records found for the specified query" soql), [])
      | some [] =>
          (.ok (.failure "No records found for the specified query" soql), [])
      | some (first :: rest) =>
          let timestamp := reportTimestamp env.nowIso
          let filename := sanitizeReportName reportName ++ "_" ++ timestamp ++ ".csv"
          let filePath := dir ++ "/" ++ filename
          let fields := (first.map Prod.fst).filter (fun field => field ≠ "attributes")
          (.ok (.success
            { filename := filename
              filePath := filePath
              recordCount := (first :: rest).length
              fields := fields
              query := soql }), [filePath])

/-! ### `rateLimiter` (src/middleware/auth.js)

The per-key entry of `requestCounts`, the step on one request (at `now`, in
ms), and the fold over a request sequence.  Times are `Nat` milliseconds. -/

/-- One entry of `requestCounts`: `{ count, resetTime }`. -/
structure RLEntry where
  count : Nat
  resetTime : Nat
  deriving Repr, DecidableEq

/-- `RATE_LIMIT_WINDOW_MS = 60 * 1000`. -/
def RATE_LIMIT_WINDOW_MS : Nat := 60 * 1000

/-- `RATE_LIMIT_MAX_REQUESTS = 5`. -/
def RATE_LIMIT_MAX_REQUESTS : Nat := 5

/-- Outcome of one request: passed through with the three informational
headers (`X-RateLimit-Limit`, `-Remaining`, `-Reset`), or answered 429 with
`retryAfter` seconds. -/
inductive RLOutcome where
  | allowed (limit remaining reset : Nat)
  | rejected (retryAfter : Nat)
  deriving Repr, DecidableEq

/-- `Math.ceil(ms / 1000)` on non-negative integers. -/
def ceilDiv1000 (ms : Nat) : Nat := (ms + 999) / 1000

/-- One `rateLimiter(req, res, next)` call for a fixed key: initialize or
reset the entry when absent or expired, reject at the cap, else increment and
set the headers. -/
def rateLimiterStep (entry : Option RLEntry) (now : Nat) : Option RLEntry × RLOutcome :=
  let e :=
    match entry with
    | none => { count := 0, resetTime := now + RATE_LIMIT_WINDOW_MS }
    | some e =>
        if e.resetTime < now then { count := 0, resetTime := now + RATE_LIMIT_WINDOW_MS }
        else e
  if RATE_LIMIT_MAX_REQUESTS ≤ e.count then
    (some e, .rejected (ceilDiv1000 (e.resetTime - now)))
  else
    let e' : RLEntry := { count := e.count + 1, resetTime := e.resetTime }
    (some e',
      .allowed RATE_LIMIT_MAX_REQUESTS (RATE_LIMIT_MAX_REQUESTS - e'.count)
        (ceilDiv1000 e'.resetTime))

/-- A sequence of requests for one key, at the given times. -/
def rateLimiterRun (entry : Option RLEntry) (ts : List Nat) :
    Option RLEntry × List RLOutcome :=
  match ts with
  | [] => (entry, [])
  | t :: rest =>
      let (e', o) := rateLimiterStep entry t
      let (e'', os) := rateLimiterRun e' rest
      (e'', o :: os)

/-! ### Concrete environments used to instantiate the theorems -/

/-- A Salesforce service where every create succeeds and queries find nothing. -/
def happySF : SFEnv :=
  { query := fun _ => .ok { records := none }
    create := fun _ _ => .ok { success := true, id := "003", errors := [] } }

/-- A service whose Contact create throws exactly on the row with LastName
`"Boom"`. -/
def boomSF : SFEnv :=
  { query := fun _ => .ok { records := none }
    create := fun _ r =>
      if getField r "LastName" = some "Boom" then .error "boom"
      else .ok { success := true, id := "003", errors := [] } }

/-- Three parsed rows; the middle one makes the create call throw. -/
def c1Env : ImportEnv :=
  { parse := .ok [[("LastName", "A")], [("LastName", "Boom")], [("LastName", "C")]]
    sf := boomSF }

/-- Two well-formed parsed rows against the happy service. -/
def c2Env : ImportEnv :=
  { parse := .ok [[("LastName", "Smith")], [("FirstName", "A")]]
    sf := happySF }

/-- The aggregate `c2Env` produces. -/
def c2Res : ImportResult :=
  { totalProcessed := 2, successful := 2, failed := 0
    successfulRecords := [("003", "Smith"), ("003", "A Unknown")]
    errors := [] }

/-- A service whose creates always report failure (`success: false`). -/
def reportedFailSF : SFEnv :=
  { query := fun _ => .ok { records := none }
    create := fun _ _ => .ok { success := false, id := "", errors := ["bad"] } }

/-- One empty parsed row against the reported-failure service. -/
def c3Env : ImportEnv :=
  { parse := .ok [[]], sf := reportedFailSF }

/-- Three parsed rows against the throwing service (exception branch). -/
def c3ExcEnv : ImportEnv :=
  { parse := .ok [[("LastName", "A")], [("LastName", "Boom")], [("LastName", "C")]]
    sf := boomSF }

/-- A row carrying an account name. -/
def c4Row : Row := [("LastName", "S"), ("AccountName", "Acme")]

/-- The exact-name query for `"Acme"` finds an existing account `001A`. -/
def c4FoundSF : SFEnv :=
  { query := fun q =>
      if q = accountQueryStr "Acme" then .ok { records := some [[("Id", "001A")]] }
      else .error "unexpected query"
    create := fun _ _ => .ok { success := true, id := "003", errors := [] } }

/-- The query finds nothing and the account create reports id `001B`. -/
def c4NewSF : SFEnv :=
  { query := fun q =>
      if q = accountQueryStr "Acme" then .ok { records := some [] }
      else .error "unexpected query"
    create := fun objectName _ =>
      if objectName = "Account" then .ok { success := true, id := "001B", errors := [] }
      else .ok { success := true, id := "003", errors := [] } }

/-- The account lookup throws. -/
def c4FailSF : SFEnv :=
  { query := fun _ => .error "query failed"
    create := fun _ _ => .ok { success := true, id := "003", errors := [] } }

/-- An import call whose CSV parse throws. -/
def c7ErrEnv : ImportEnv :=
  { parse := .error "bad CSV", sf := happySF }

/-- An import call whose parse yields one row. -/
def c7OkEnv : ImportEnv :=
  { parse := .ok [[("LastName", "Z")]], sf := happySF }

/-- A report environment whose query returns no `records` property. -/
def c6Env : ReportEnv :=
  { query := fun _ => .ok { records := none }
    nowIso := "2024-01-01T00:00:00.000Z" }

/-- A report environment returning one record with a metadata key. -/
def c9Env : ReportEnv :=
  { query := fun _ => .ok { records := some [[("attributes", "z"), ("Id", "1"), ("Name", "n")]] }
    nowIso := "2024-01-01T00:00:00.000Z" }

/-! ## Basic lemmas on the object model -/

@[simp] theorem getField_nil (k : String) : getField [] k = none := rfl

@[simp] theorem getField_cons (k' v k) (rest : Row) :
    getField ((k', v) :: rest) k = if k' = k then some v else getField rest k := rfl

@[simp] theorem getField_setField (r : Row) (k v k') :
    getField (setField r k v) k' = if k' = k then some v else getField r k' := by
  induction r with
  | nil =>
      by_cases h : k' = k
      · simp [setField, h]
      · simp [setField, h, Ne.symm h]
  | cons p rest ih =>
      obtain ⟨k₀, v₀⟩ := p
      by_cases h₀ : k₀ = k
      · subst h₀
        by_cases h : k' = k₀
        · simp [setField, h]
        · simp [setField, h, Ne.symm h]
      · by_cases h : k' = k₀
        · subst h
          simp [setField, h₀, Ne.symm h₀]
        · simp [setField, h₀, h, Ne.symm h, ih]

@[simp] theorem getField_removeField (r : Row) (k k') :
    getField (removeField r k) k' = if k' = k then none else getField r k' := by
  induction r with
  | nil => simp [removeField]
  | cons p rest ih =>
      obtain ⟨k₀, v₀⟩ := p
      by_cases h₀ : k₀ = k
      · subst h₀
        by_cases h : k' = k₀
        · simp_all [removeField]
        · simp_all [removeField, Ne.symm h]
      · by_cases h : k' = k₀
        · subst h
          simp_all [removeField, Ne.symm h₀]
        · simp_all [removeField, Ne.symm h]

theorem getField_ite (c : Prop) [Decidable c] (a b : Row) (k : String) :
    getField (if c then a else b) k = if c then getField a k else getField b k :=
  apply_ite (fun r => getField r k) c a b

theorem truthy_some_iff (s : String) : truthy (some s) = true ↔ s ≠ "" := by
  simp [truthy]

@[simp] theorem truthy_none : truthy none = false := rfl

theorem getField_mem_keys {r : Row} {k : String} (h : k ∈ r.map Prod.fst) :
    ∃ v, getField r k = some v := by
  induction r with
  | nil => simp at h
  | cons p rest ih =>
      obtain ⟨k₀, v₀⟩ := p
      by_cases hk : k₀ = k
      · exact ⟨v₀, by simp [hk]⟩
      · have : k ∈ rest.map Prod.fst := by
          simpa [hk, Ne.symm hk] using h
        obtain ⟨v, hv⟩ := ih this
        exact ⟨v, by simp [hk, hv]⟩

/-! ## Lemmas on the phases of `mapContactFields` -/

/-- The five keys the mailing-address block can set. -/
def mailingFields : List String :=
  ["MailingStreet", "MailingCity", "MailingState", "MailingPostalCode", "MailingCountry"]

theorem getField_withStandardFields_of_not_mem (c r : Row) (k : String)
    (hk : k ∉ standardFields) :
    getField (withStandardFields c r) k = getField r k := by
  simp only [standardFields, List.mem_cons, List.not_mem_nil, or_false, not_or] at hk
  obtain ⟨h1, h2, h3, h4, h5, h6, h7⟩ := hk
  simp [withStandardFields, standardFields, getField_ite, getField_setField,
    h1, h2, h3, h4, h5, h6, h7, ite_self]

theorem getField_withStandardFields_of_not_truthy (c r : Row) (f : String)
    (hf : f ∈ standardFields) (ht : truthy (getField c f) = false) :
    getField (withStandardFields c r) f = getField r f := by
  simp only [standardFields, List.mem_cons, List.not_mem_nil, or_false] at hf
  rcases hf with rfl | rfl | rfl | rfl | rfl | rfl | rfl <;>
    simp [withStandardFields, standardFields, getField_ite, getField_setField, ht, ite_self]

theorem getField_withAddressFields_of_not_mem (c r : Row) (k : String)
    (hk : k ∉ mailingFields) :
    getField (withAddressFields c r) k = getField r k := by
  simp only [mailingFields, List.mem_cons, List.not_mem_nil, or_false, not_or] at hk
  obtain ⟨h1, h2, h3, h4, h5⟩ := hk
  simp [withAddressFields, getField_ite, getField_setField, h1, h2, h3, h4, h5, ite_self]

theorem getField_withAddressFields_of_not_truthy (c r : Row) (f : String)
    (hf : f ∈ mailingFields) (ht : truthy (getField c f) = false) :
    getField (withAddressFields c r) f = getField r f := by
  simp only [mailingFields, List.mem_cons, List.not_mem_nil, or_false] at hf
  rcases hf with rfl | rfl | rfl | rfl | rfl <;>
    simp [withAddressFields, getField_ite, getField_setField, ht, ite_self]

theorem getField_withAccountName_of_ne (c r : Row) (k : String)
    (hk : k ≠ "AccountName") :
    getField (withAccountName c r) k = getField r k := by
  simp [withAccountName, getField_ite, getField_setField, hk, ite_self]

theorem getField_withAccountName_self (c r : Row) :
    getField (withAccountName c r) "AccountName" =
      if truthy (getField c "AccountName") then some ((getField c "AccountName").getD "")
      else getField r "AccountName" := by
  by_cases h : truthy (getField c "AccountName") = true
  · simp [withAccountName, h]
  · simp only [Bool.not_eq_true] at h
    simp [withAccountName, h]

theorem getField_customFold_of_not_endsWith (c : Row) (keys : List String) (r : Row)
    (k : String) (hk : endsWithC k = false) :
    getField
      (keys.foldl
        (fun acc key =>
          if endsWithC key then setField acc key ((getField c key).getD "") else acc)
        r) k = getField r k := by
  induction keys generalizing r with
  | nil => rfl
  | cons key₀ rest ih =>
      by_cases hEnd : endsWithC key₀ = true
      · have hne : k ≠ key₀ := by
          intro h
          rw [h, hEnd] at hk
          exact Bool.noConfusion hk
        simp only [List.foldl_cons, hEnd, if_true]
        rw [ih]
        simp [hne]
      · simp only [Bool.not_eq_true] at hEnd
        simp only [List.foldl_cons, hEnd, Bool.false_eq_true, if_false]
        exact ih r

theorem getField_customFold_of_not_mem (c : Row) (keys : List String) (r : Row)
    (k : String) (hk : k ∉ keys) :
    getField
      (keys.foldl
        (fun acc key =>
          if endsWithC key then setField acc key ((getField c key).getD "") else acc)
        r) k = getField r k := by
  induction keys generalizing r with
  | nil => rfl
  | cons key₀ rest ih =>
      have hne : k ≠ key₀ := fun h => hk (h ▸ List.mem_cons_self key₀ rest)
      have hrest : k ∉ rest := fun h => hk (List.mem_cons_of_mem key₀ h)
      by_cases hEnd : endsWithC key₀ = true
      · simp only [List.foldl_cons, hEnd, if_true]
        rw [ih _ hrest]
        simp [hne]
      · simp only [Bool.not_eq_true] at hEnd
        simp only [List.foldl_cons, hEnd, Bool.false_eq_true, if_false]
        exact ih r hrest

theorem getField_customFold_of_mem (c : Row) (keys : List String) (r : Row)
    (k : String) (hk : k ∈ keys) (hEnd : endsWithC k = true) :
    getField
      (keys.foldl
        (fun acc key =>
          if endsWithC key then setField acc key ((getField c key).getD "") else acc)
        r) k = some ((getField c k).getD "") := by
  induction keys generalizing r with
  | nil => simp at hk
  | cons key₀ rest ih =>
      by_cases hrest : k ∈ rest
      · by_cases hEnd₀ : endsWithC key₀ = true
        · simp only [List.foldl_cons, hEnd₀, if_true]
          exact ih _ hrest
        · simp only [Bool.not_eq_true] at hEnd₀
          simp only [List.foldl_cons, hEnd₀, Bool.false_eq_true, if_false]
          exact ih r hrest
      · have hk₀ : k = key₀ := by
          rcases List.mem_cons.mp hk with h | h
          · exact h
          · exact absurd h hrest
        subst hk₀
        simp only [List.foldl_cons, hEnd, if_true]
        rw [getField_customFold_of_not_mem c rest _ k hrest]
        simp

theorem getField_withCustomFields_of_not_endsWith (c r : Row) (k : String)
    (hk : endsWithC k = false) :
    getField (withCustomFields c r) k = getField r k :=
  getField_customFold_of_not_endsWith c (c.map Prod.fst) r k hk

theorem getField_withCustomFields_of_mem (c r : Row) (k : String)
    (hk : k ∈ c.map Prod.fst) (hEnd : endsWithC k = true) :
    getField (withCustomFields c r) k = some ((getField c k).getD "") :=
  getField_customFold_of_mem c (c.map Prod.fst) r k hk hEnd

/-! ## Key-level characterization of `mapContactFields` -/

/-- Every key `mapContactFields` can emit besides the custom-field suffix. -/
def recognizedKeys : List String :=
  "LastName" :: standardFields ++ mailingFields ++ ["AccountName"]

theorem mapContactFields_lastName (c : Row) :
    getField (mapContactFields c) "LastName" =
      some (jsOr (getField c "LastName") "Unknown") := by
  unfold mapContactFields
  rw [getField_withCustomFields_of_not_endsWith _ _ _ (by decide)]
  rw [getField_withAccountName_of_ne _ _ _ (by decide)]
  rw [getField_withAddressFields_of_not_mem _ _ _ (by decide)]
  rw [getField_withStandardFields_of_not_mem _ _ _ (by decide)]
  simp [initialContactRecord]

theorem mapContactFields_accountName (c : Row) :
    getField (mapContactFields c) "AccountName" =
      if truthy (getField c "AccountName") then some ((getField c "AccountName").getD "")
      else none := by
  unfold mapContactFields
  rw [getField_withCustomFields_of_not_endsWith _ _ _ (by decide)]
  rw [getField_withAccountName_self]
  rw [getField_withAddressFields_of_not_mem _ _ _ (by decide)]
  rw [getField_withStandardFields_of_not_mem _ _ _ (by decide)]
  simp [initialContactRecord]

theorem mapContactFields_dropped (c : Row) (k : String)
    (hk : k ∉ recognizedKeys) (hEnd : endsWithC k = false) :
    getField (mapContactFields c) k = none := by
  have hLast : k ≠ "LastName" := by
    intro h; exact hk (by simp [recognizedKeys, h])
  have hAcc : k ≠ "AccountName" := by
    intro h; exact hk (by simp [recognizedKeys, h])
  have hstd : k ∉ standardFields := by
    intro h; exact hk (by simp [recognizedKeys, List.mem_append, h])
  have hmail : k ∉ mailingFields := by
    intro h; exact hk (by simp [recognizedKeys, List.mem_append, h])
  unfold mapContactFields
  rw [getField_withCustomFields_of_not_endsWith _ _ _ hEnd]
  rw [getField_withAccountName_of_ne _ _ _ hAcc]
  rw [getField_withAddressFields_of_not_mem _ _ _ hmail]
  rw [getField_withStandardFields_of_not_mem _ _ _ hstd]
  simp [initialContactRecord, Ne.symm hLast]

theorem mapContactFields_standard_empty (c : Row) (f : String)
    (hf : f ∈ standardFields ++ mailingFields) (hv : getField c f = some "") :
    getField (mapContactFields c) f = none := by
  have ht : truthy (getField c f) = false := by rw [hv]; rfl
  rcases List.mem_append.mp hf with hstd | hmail
  · unfold mapContactFields
    rw [getField_withCustomFields_of_not_endsWith _ _ _ (by
      revert hstd
      have : ∀ g ∈ standardFields, endsWithC g = false := by decide
      exact this f)]
    rw [getField_withAccountName_of_ne _ _ _ (by
      have : ∀ g ∈ standardFields, g ≠ "AccountName" := by decide
      exact this f hstd)]
    rw [getField_withAddressFields_of_not_mem _ _ _ (by
      have : ∀ g ∈ standardFields, g ∉ mailingFields := by decide
      exact this f hstd)]
    rw [getField_withStandardFields_of_not_truthy _ _ _ hstd ht]
    have hne : f ≠ "LastName" := by
      have : ∀ g ∈ standardFields, g ≠ "LastName" := by decide
      exact this f hstd
    simp [initialContactRecord, Ne.symm hne]
  · unfold mapContactFields
    rw [getField_withCustomFields_of_not_endsWith _ _ _ (by
      have : ∀ g ∈ mailingFields, endsWithC g = false := by decide
      exact this f hmail)]
    rw [getField_withAccountName_of_ne _ _ _ (by
      have : ∀ g ∈ mailingFields, g ≠ "AccountName" := by decide
      exact this f hmail)]
    rw [getField_withAddressFields_of_not_truthy _ _ _ hmail ht]
    rw [getField_withStandardFields_of_not_mem _ _ _ (by
      have : ∀ g ∈ mailingFields, g ∉ standardFields := by decide
      exact this f hmail)]
    have hne : f ≠ "LastName" := by
      have : ∀ g ∈ mailingFields, g ≠ "LastName" := by decide
      exact this f hmail
    simp [initialContactRecord, Ne.symm hne]

theorem mapContactFields_custom (c : Row) (k : String)
    (hk : k ∈ c.map Prod.fst) (hEnd : endsWithC k = true) :
    getField (mapContactFields c) k = getField c k := by
  obtain ⟨v, hv⟩ := getField_mem_keys hk
  unfold mapContactFields
  rw [getField_withCustomFields_of_mem _ _ _ hk hEnd, hv]
  rfl

/-! ## Lemmas on the import loop -/

theorem processRow_len (env : SFEnv) (acc : RowAcc) (c : Row) :
    (processRow env acc c).successfulRecords.length + (processRow env acc c).errors.length
      = acc.successfulRecords.length + acc.errors.length + 1 := by
  unfold processRow
  cases hcr : env.create "Contact" (buildContactRecord env c) with
  | error e =>
      simp [hcr]
      omega
  | ok result =>
      by_cases h : result.success = true
      · simp [hcr, h]
        omega
      · simp only [Bool.not_eq_true] at h
        simp [hcr, h]
        omega

theorem foldl_processRow_len (env : SFEnv) (contacts : List Row) (acc : RowAcc) :
    (contacts.foldl (processRow env) acc).successfulRecords.length +
      (contacts.foldl (processRow env) acc).errors.length
      = acc.successfulRecords.length + acc.errors.length + contacts.length := by
  induction contacts generalizing acc with
  | nil => simp
  | cons c rest ih =>
      simp only [List.foldl_cons, List.length_cons]
      rw [ih]
      rw [processRow_len]
      omega

theorem processRow_errors_extend (env : SFEnv) (acc : RowAcc) (c : Row) :
    ∃ tail, (processRow env acc c).errors = acc.errors ++ tail := by
  unfold processRow
  cases hcr : env.create "Contact" (buildContactRecord env c) with
  | error e => exact ⟨[(c, e)], by simp [hcr]⟩
  | ok result =>
      by_cases h : result.success = true
      · exact ⟨[], by simp [hcr, h]⟩
      · simp only [Bool.not_eq_true] at h
        exact ⟨[(buildContactRecord env c, joinComma result.errors)], by simp [hcr, h]⟩

theorem foldl_processRow_errors_extend (env : SFEnv) (contacts : List Row) (acc : RowAcc) :
    ∃ tail, (contacts.foldl (processRow env) acc).errors = acc.errors ++ tail := by
  induction contacts generalizing acc with
  | nil => exact ⟨[], by simp⟩
  | cons c rest ih =>
      obtain ⟨t₁, h₁⟩ := processRow_errors_extend env acc c
      obtain ⟨t₂, h₂⟩ := ih (processRow env acc c)
      exact ⟨t₁ ++ t₂, by simp only [List.foldl_cons, h₂, h₁, List.append_assoc]⟩

theorem foldl_processRow_errors_mono (env : SFEnv) (contacts : List Row) (acc : RowAcc)
    (p : Row × String) (hp : p ∈ acc.errors) :
    p ∈ (contacts.foldl (processRow env) acc).errors := by
  obtain ⟨tail, h⟩ := foldl_processRow_errors_extend env contacts acc
  rw [h]
  exact List.mem_append_left _ hp

theorem processRow_exception_mem (env : SFEnv) (acc : RowAcc) (c : Row) (e : String)
    (h : env.create "Contact" (buildContactRecord env c) = .error e) :
    (c, e) ∈ (processRow env acc c).errors := by
  simp [processRow, h]

theorem processRow_reported_mem (env : SFEnv) (acc : RowAcc) (c : Row) (cr : CreateResult)
    (h : env.create "Contact" (buildContactRecord env c) = .ok cr)
    (hs : cr.success = false) :
    (buildContactRecord env c, joinComma cr.errors) ∈ (processRow env acc c).errors := by
  simp [processRow, h, hs]

/-! ## Claims -/

/-- Claim C5: a CSV row whose `LastName` is absent or empty maps to a candidate
record whose `LastName` is the fixed placeholder `"Unknown"`; a row with a
non-empty `LastName` maps to a record carrying that value. -/
theorem claim_C5 (row : Row) :
    ((getField row "LastName" = none ∨ getField row "LastName" = some "") →
      getField (mapContactFields row) "LastName" = some "Unknown") ∧
    (∀ v, getField row "LastName" = some v → v ≠ "" →
      getField (mapContactFields row) "LastName" = some v) := by
  constructor
  · intro h
    rw [mapContactFields_lastName]
    rcases h with h | h <;> simp [h, jsOr]
  · intro v hv hne
    rw [mapContactFields_lastName]
    simp [hv, jsOr, hne]

/-- Witness for C5: an absent, an empty, and a non-empty `LastName`. -/
theorem claim_C5_witness :
    getField (mapContactFields [("FirstName", "Ada")]) "LastName" = some "Unknown" ∧
    getField (mapContactFields [("LastName", "")]) "LastName" = some "Unknown" ∧
    getField (mapContactFields [("LastName", "Smith")]) "LastName" = some "Smith" :=
  ⟨(claim_C5 [("FirstName", "Ada")]).1 (Or.inl rfl),
   (claim_C5 [("LastName", "")]).1 (Or.inr rfl),
   (claim_C5 [("LastName", "Smith")]).2 "Smith" rfl (by decide)⟩

/-- Claim C10: `mapContactFields` treats empty values asymmetrically — an
allow-list standard or mailing-address field whose value is the empty string
is omitted, a column whose key carries the `__c` suffix is copied
unconditionally (even when empty), and any key outside the recognized set
without the suffix is dropped. -/
theorem claim_C10 (row : Row) :
    (∀ f, f ∈ standardFields ++ mailingFields → getField row f = some "" →
      getField (mapContactFields row) f = none) ∧
    (∀ k, endsWithC k = true → k ∈ row.map Prod.fst →
      getField (mapContactFields row) k = getField row k) ∧
    (∀ k, k ∉ recognizedKeys → endsWithC k = false →
      getField (mapContactFields row) k = none) :=
  ⟨fun f hf hv => mapContactFields_standard_empty row f hf hv,
   fun k hEnd hk => mapContactFields_custom row k hk hEnd,
   fun k hk hEnd => mapContactFields_dropped row k hk hEnd⟩

/-- Witness for C10 on the row `[("Email", ""), ("Custom__c", ""), ("Junk", "x")]`:
the empty standard field is omitted, the empty custom field is kept, the
unrecognized key is dropped. -/
theorem claim_C10_witness :
    getField (mapContactFields [("Email", ""), ("Custom__c", ""), ("Junk", "x")]) "Email" = none ∧
    getField (mapContactFields [("Email", ""), ("Custom__c", ""), ("Junk", "x")]) "Custom__c" = some "" ∧
    getField (mapContactFields [("Email", ""), ("Custom__c", ""), ("Junk", "x")]) "Junk" = none :=
  ⟨(claim_C10 [("Email", ""), ("Custom__c", ""), ("Junk", "x")]).1 "Email" (by decide) rfl,
   ((claim_C10 [("Email", ""), ("Custom__c", ""), ("Junk", "x")]).2.1 "Custom__c" (by decide)
      (by decide)).trans rfl,
   (claim_C10 [("Email", ""), ("Custom__c", ""), ("Junk", "x")]).2.2 "Junk" (by decide) (by decide)⟩

/-- Claim C2: every normally-returning import run satisfies
`totalProcessed = successful + failed`, `successful = |successfulRecords|`
and `failed = |errors|`. -/
theorem claim_C2 (env : ImportEnv) (res : ImportResult)
    (h : (importContactsFromCSV env).1 = .ok res) :
    res.totalProcessed = res.successful + res.failed ∧
    res.successful = res.successfulRecords.length ∧
    res.failed = res.errors.length := by
  unfold importContactsFromCSV at h
  cases hp : env.parse with
  | error e => rw [hp] at h; exact absurd h (by simp)
  | ok contacts =>
      rw [hp] at h
      simp only [Except.ok.injEq] at h
      subst h
      refine ⟨?_, rfl, rfl⟩
      have := foldl_processRow_len env.sf contacts emptyAcc
      simpa [emptyAcc] using this.symm

/-- Witness for C2: the two-row happy-path environment. -/
theorem claim_C2_witness :
    c2Res.totalProcessed = c2Res.successful + c2Res.failed ∧
    c2Res.successful = c2Res.successfulRecords.length ∧
    c2Res.failed = c2Res.errors.length :=
  claim_C2 c2Env c2Res rfl

/-- Claim C7: a parse exception propagates to the caller and the source file
is not deleted; on parse success the file is deleted exactly once after the
row loop and the aggregate (with one slot per parsed row) is returned. -/
theorem claim_C7 (env : ImportEnv) :
    (∀ e, env.parse = .error e → importContactsFromCSV env = (.error e, 0)) ∧
    (∀ rows, env.parse = .ok rows →
      (importContactsFromCSV env).2 = 1 ∧
      ∃ res, (importContactsFromCSV env).1 = .ok res ∧ res.totalProcessed = rows.length) := by
  constructor
  · intro e h
    unfold importContactsFromCSV
    rw [h]
  · intro rows h
    unfold importContactsFromCSV
    rw [h]
    exact ⟨rfl, ⟨_, rfl, rfl⟩⟩

/-- Witness for C7: a throwing parse and a one-row successful parse. -/
theorem claim_C7_witness :
    importContactsFromCSV c7ErrEnv = (.error "bad CSV", 0) ∧
    ((importContactsFromCSV c7OkEnv).2 = 1 ∧
      ∃ res, (importContactsFromCSV c7OkEnv).1 = .ok res ∧ res.totalProcessed = 1) :=
  ⟨(claim_C7 c7ErrEnv).1 "bad CSV" rfl, (claim_C7 c7OkEnv).2 [[("LastName", "Z")]] rfl⟩

/-- Anything a given row's `processRow` adds to the errors list survives to
the end of the loop, whatever accumulator that row starts from. -/
theorem foldl_processRow_mem_of_step (env : SFEnv) (rows : List Row) (i : Nat)
    (hi : i < rows.length) (p : Row × String)
    (hp : ∀ acc, p ∈ (processRow env acc (rows.get ⟨i, hi⟩)).errors) :
    p ∈ (rows.foldl (processRow env) emptyAcc).errors := by
  have hd : rows.take i ++ rows.drop i = rows := List.take_append_drop i rows
  have hdr : rows.drop i = rows.get ⟨i, hi⟩ :: rows.drop (i + 1) := by
    rw [List.drop_eq_getElem_cons hi]
    simp
  have hfold : rows.foldl (processRow env) emptyAcc
      = (rows.drop (i + 1)).foldl (processRow env)
          (processRow env ((rows.take i).foldl (processRow env) emptyAcc)
            (rows.get ⟨i, hi⟩)) := by
    conv_lhs => rw [← hd, hdr]
    rw [List.foldl_append, List.foldl_cons]
  rw [hfold]
  exact foldl_processRow_errors_mono _ _ _ _ (hp _)

/-- Claim C1: a row-level exception is caught — the failing row appears in the
errors list paired with the exception message, the aggregate is still
returned (and the file deleted), and every parsed row still contributes
exactly one outcome entry. -/
theorem claim_C1 (env : ImportEnv) (rows : List Row) (i : Nat) (hi : i < rows.length)
    (hp : env.parse = .ok rows) (e : String)
    (he : env.sf.create "Contact" (buildContactRecord env.sf (rows.get ⟨i, hi⟩)) = .error e) :
    ∃ res, importContactsFromCSV env = (.ok res, 1) ∧
      (rows.get ⟨i, hi⟩, e) ∈ res.errors ∧
      res.successfulRecords.length + res.errors.length = rows.length := by
  unfold importContactsFromCSV
  rw [hp]
  refine ⟨_, rfl, ?_, ?_⟩
  · exact foldl_processRow_mem_of_step env.sf rows i hi _
      (fun acc => processRow_exception_mem env.sf acc _ e he)
  · have := foldl_processRow_len env.sf rows emptyAcc
    simpa [emptyAcc] using this

/-- Witness for C1: the middle of three rows throws; both neighbours are
still processed. -/
theorem claim_C1_witness :
    ∃ res, importContactsFromCSV c1Env = (.ok res, 1) ∧
      ([("LastName", "Boom")], "boom") ∈ res.errors ∧
      res.successfulRecords.length + res.errors.length = 3 :=
  claim_C1 c1Env [[("LastName", "A")], [("LastName", "Boom")], [("LastName", "C")]] 1
    (by decide) rfl "boom" rfl

/-- Claim C3 counterexample: with the single parsed row `[]` whose create call
reports failure, the failure entry records the mapped candidate record
`[("LastName", "Unknown")]` — not the original CSV row `[]` as the claim
states. -/
theorem claim_C3_counterexample :
    (importContactsFromCSV c3Env).1 =
      .ok { totalProcessed := 1, successful := 0, failed := 1
            successfulRecords := []
            errors := [([("LastName", "Unknown")], "bad")] } ∧
    ([("LastName", "Unknown")] : Row) ≠ ([] : Row) :=
  ⟨rfl, by decide⟩

/-- Claim C3 (amended): a row whose create call *reports* failure is recorded
with the mapped candidate record and the joined error text; a row whose
processing *throws* is recorded with the original CSV row and the exception
message. -/
theorem claim_C3 (env : ImportEnv) (rows : List Row) (i : Nat) (hi : i < rows.length)
    (hp : env.parse = .ok rows) :
    (∀ cr, env.sf.create "Contact" (buildContactRecord env.sf (rows.get ⟨i, hi⟩)) = .ok cr →
      cr.success = false →
      ∃ res, (importContactsFromCSV env).1 = .ok res ∧
        (buildContactRecord env.sf (rows.get ⟨i, hi⟩), joinComma cr.errors) ∈ res.errors) ∧
    (∀ e, env.sf.create "Contact" (buildContactRecord env.sf (rows.get ⟨i, hi⟩)) = .error e →
      ∃ res, (importContactsFromCSV env).1 = .ok res ∧
        (rows.get ⟨i, hi⟩, e) ∈ res.errors) := by
  constructor
  · intro cr hcr hs
    unfold importContactsFromCSV
    rw [hp]
    exact ⟨_, rfl, foldl_processRow_mem_of_step env.sf rows i hi _
      (fun acc => processRow_reported_mem env.sf acc _ cr hcr hs)⟩
  · intro e he
    unfold importContactsFromCSV
    rw [hp]
    exact ⟨_, rfl, foldl_processRow_mem_of_step env.sf rows i hi _
      (fun acc => processRow_exception_mem env.sf acc _ e he)⟩

/-- Witness for the amended C3: one reported failure records the mapped
record, one thrown exception records the original row. -/
theorem claim_C3_witness :
    (∃ res, (importContactsFromCSV c3Env).1 = .ok res ∧
      ([("LastName", "Unknown")], "bad") ∈ res.errors) ∧
    (∃ res, (importContactsFromCSV c3ExcEnv).1 = .ok res ∧
      ([("LastName", "Boom")], "boom") ∈ res.errors) :=
  ⟨(claim_C3 c3Env [[]] 0 (by decide) rfl).1
      { success := false, id := "", errors := ["bad"] } rfl rfl,
   (claim_C3 c3ExcEnv [[("LastName", "A")], [("LastName", "Boom")], [("LastName", "C")]] 1
      (by decide) rfl).2 "boom" rfl⟩

/-- Claim C4: for a row whose mapped record carries a (truthy) `AccountName`:
a query hit attaches the existing record's non-empty `Id` as `AccountId`; a
miss followed by a successful account create attaches the new non-empty id; a
failed resolution leaves the record without an `AccountId` (the row is
submitted as the mapped record minus `AccountName`); and in every case the
`AccountName` key is absent from the submitted record. -/
theorem claim_C4 (env : SFEnv) (contact : Row) (name : String)
    (hname : getField (mapContactFields contact) "AccountName" = some name)
    (hne : name ≠ "") :
    getField (buildContactRecord env contact) "AccountName" = none ∧
    (∀ rec rest id,
      env.query (accountQueryStr name) = .ok { records := some (rec :: rest) } →
      getField rec "Id" = some id → id ≠ "" →
      getField (buildContactRecord env contact) "AccountId" = some id) ∧
    (∀ cr, (env.query (accountQueryStr name) = .ok { records := some [] } ∨
            env.query (accountQueryStr name) = .ok { records := none }) →
      env.create "Account" [("Name", name)] = .ok cr → cr.success = true → cr.id ≠ "" →
      getField (buildContactRecord env contact) "AccountId" = some cr.id) ∧
    ((findOrCreateAccount env name = none ∨ findOrCreateAccount env name = some "") →
      buildContactRecord env contact = removeField (mapContactFields contact) "AccountName") := by
  refine ⟨?_, ?_, ?_, ?_⟩
  · simp only [buildContactRecord]
    rw [hname]
    simp [truthy, hne]
  · intro rec rest id hq hid hidne
    have hfca : findOrCreateAccount env name = some id := by
      simp [findOrCreateAccount, hq, hid]
    simp only [buildContactRecord]
    rw [hname]
    simp [truthy, hne, hfca, hidne]
  · intro cr hq hcr hcs hcne
    have hfca : findOrCreateAccount env name = some cr.id := by
      rcases hq with hq | hq <;> simp [findOrCreateAccount, hq, hcr, hcs]
    simp only [buildContactRecord]
    rw [hname]
    simp [truthy, hne, hfca, hcne]
  · intro hfail
    simp only [buildContactRecord]
    rw [hname]
    rcases hfail with hf | hf <;> simp [truthy, hne, hf]

/-- Witness for C4 on the row `[("LastName","S"), ("AccountName","Acme")]`:
a hit attaches `001A`, a miss-then-create attaches `001B`, a throwing lookup
leaves the record without an `AccountId`, and `AccountName` is gone. -/
theorem claim_C4_witness :
    getField (buildContactRecord c4FoundSF c4Row) "AccountName" = none ∧
    getField (buildContactRecord c4FoundSF c4Row) "AccountId" = some "001A" ∧
    getField (buildContactRecord c4NewSF c4Row) "AccountId" = some "001B" ∧
    buildContactRecord c4FailSF c4Row = removeField (mapContactFields c4Row) "AccountName" :=
  ⟨(claim_C4 c4FoundSF c4Row "Acme" rfl (by decide)).1,
   (claim_C4 c4FoundSF c4Row "Acme" rfl (by decide)).2.1 [("Id", "001A")] [] "001A"
     rfl rfl (by decide),
   (claim_C4 c4NewSF c4Row "Acme" rfl (by decide)).2.2.1
     { success := true, id := "001B", errors := [] } (Or.inl rfl) rfl rfl (by decide),
   (claim_C4 c4FailSF c4Row "Acme" rfl (by decide)).2.2.2 (Or.inl rfl)⟩

/-- Claim C6: a query with no `records` property or zero records makes
`generateCsvReport` return `success: false` with the descriptive reason, and
no file is written. -/
theorem claim_C6 (env : ReportEnv) (soql reportName dir : String)
    (h : env.query soql = .ok { records := none } ∨
         env.query soql = .ok { records := some [] }) :
    generateCsvReport env soql reportName dir =
      (.ok (.failure "No records found for the specified query" soql), []) := by
  rcases h with h | h <;> simp [generateCsvReport, h]

/-- Witness for C6: the missing-records environment. -/
theorem claim_C6_witness :
    generateCsvReport c6Env "SELECT Id FROM Contact" "My Report" "/tmp" =
      (.ok (.failure "No records found for the specified query" "SELECT Id FROM Contact"),
       []) :=
  claim_C6 c6Env "SELECT Id FROM Contact" "My Report" "/tmp" (Or.inl rfl)

/-- Claim C9: on a non-empty result the returned `fields` list is the key list
of the first record, in its order, with the metadata key `attributes`
removed. -/
theorem claim_C9 (env : ReportEnv) (soql reportName dir : String)
    (first : Row) (rest : List Row)
    (h : env.query soql = .ok { records := some (first :: rest) }) :
    ∃ r, (generateCsvReport env soql reportName dir).1 = .ok (.success r) ∧
      r.fields = (first.map Prod.fst).filter (fun field => field ≠ "attributes") := by
  refine ⟨⟨sanitizeReportName reportName ++ "_" ++ reportTimestamp env.nowIso ++ ".csv",
           dir ++ "/" ++ (sanitizeReportName reportName ++ "_" ++ reportTimestamp env.nowIso ++ ".csv"),
           (first :: rest).length,
           (first.map Prod.fst).filter (fun field => field ≠ "attributes"),
           soql⟩, ?_, rfl⟩
  simp [generateCsvReport, h]

/-- Witness for C9: one record with keys `attributes, Id, Name` yields the
field list `[Id, Name]`. -/
theorem claim_C9_witness :
    ∃ r, (generateCsvReport c9Env "SELECT Id, Name FROM Contact" "Rep" "/tmp").1 =
        .ok (.success r) ∧
      r.fields = (([("attributes", "z"), ("Id", "1"), ("Name", "n")] : Row).map Prod.fst).filter
        (fun field => field ≠ "attributes") :=
  claim_C9 c9Env "SELECT Id, Name FROM Contact" "Rep" "/tmp"
    [("attributes", "z"), ("Id", "1"), ("Name", "n")] [] rfl

/-- Claim C8: for one caller key, five in-window requests all pass with the
informational headers (the 5th — the configured maximum — included, with zero
remaining), the 6th request in the same window is rejected with a
`retryAfter` of at most 60 seconds, and the first request after the window's
reset time has passed sees the counter reset to zero and passes. -/
theorem claim_C8 (t0 t1 t2 t3 t4 t5 t6 : Nat)
    (h01 : t0 ≤ t1) (h12 : t1 ≤ t2) (h23 : t2 ≤ t3) (h34 : t3 ≤ t4) (h45 : t4 ≤ t5)
    (h5w : t5 ≤ t0 + RATE_LIMIT_WINDOW_MS) (h6w : t0 + RATE_LIMIT_WINDOW_MS < t6) :
    (rateLimiterRun none [t0, t1, t2, t3, t4]).2 =
      [.allowed 5 4 (ceilDiv1000 (t0 + RATE_LIMIT_WINDOW_MS)),
       .allowed 5 3 (ceilDiv1000 (t0 + RATE_LIMIT_WINDOW_MS)),
       .allowed 5 2 (ceilDiv1000 (t0 + RATE_LIMIT_WINDOW_MS)),
       .allowed 5 1 (ceilDiv1000 (t0 + RATE_LIMIT_WINDOW_MS)),
       .allowed 5 0 (ceilDiv1000 (t0 + RATE_LIMIT_WINDOW_MS))] ∧
    (rateLimiterStep (rateLimiterRun none [t0, t1, t2, t3, t4]).1 t5).2 =
      .rejected (ceilDiv1000 (t0 + RATE_LIMIT_WINDOW_MS - t5)) ∧
    ceilDiv1000 (t0 + RATE_LIMIT_WINDOW_MS - t5) ≤ 60 ∧
    rateLimiterStep (rateLimiterStep (rateLimiterRun none [t0, t1, t2, t3, t4]).1 t5).1 t6 =
      (some { count := 1, resetTime := t6 + RATE_LIMIT_WINDOW_MS },
       .allowed 5 4 (ceilDiv1000 (t6 + RATE_LIMIT_WINDOW_MS))) := by
  have hW : RATE_LIMIT_WINDOW_MS = 60000 := rfl
  rw [hW] at h5w h6w ⊢
  have e0 : rateLimiterStep none t0 =
      (some ⟨1, t0 + 60000⟩, .allowed 5 4 (ceilDiv1000 (t0 + 60000))) := by
    simp [rateLimiterStep, RATE_LIMIT_MAX_REQUESTS, RATE_LIMIT_WINDOW_MS]
  have e1 : rateLimiterStep (some ⟨1, t0 + 60000⟩) t1 =
      (some ⟨2, t0 + 60000⟩, .allowed 5 3 (ceilDiv1000 (t0 + 60000))) := by
    simp [rateLimiterStep, RATE_LIMIT_MAX_REQUESTS,
      show ¬ (t0 + 60000 < t1) by omega]
  have e2 : rateLimiterStep (some ⟨2, t0 + 60000⟩) t2 =
      (some ⟨3, t0 + 60000⟩, .allowed 5 2 (ceilDiv1000 (t0 + 60000))) := by
    simp [rateLimiterStep, RATE_LIMIT_MAX_REQUESTS,
      show ¬ (t0 + 60000 < t2) by omega]
  have e3 : rateLimiterStep (some ⟨3, t0 + 60000⟩) t3 =
      (some ⟨4, t0 + 60000⟩, .allowed 5 1 (ceilDiv1000 (t0 + 60000))) := by
    simp [rateLimiterStep, RATE_LIMIT_MAX_REQUESTS,
      show ¬ (t0 + 60000 < t3) by omega]
  have e4 : rateLimiterStep (some ⟨4, t0 + 60000⟩) t4 =
      (some ⟨5, t0 + 60000⟩, .allowed 5 0 (ceilDiv1000 (t0 + 60000))) := by
    simp [rateLimiterStep, RATE_LIMIT_MAX_REQUESTS,
      show ¬ (t0 + 60000 < t4) by omega]
  have hrun : rateLimiterRun none [t0, t1, t2, t3, t4] =
      (some ⟨5, t0 + 60000⟩,
       [.allowed 5 4 (ceilDiv1000 (t0 + 60000)), .allowed 5 3 (ceilDiv1000 (t0 + 60000)),
        .allowed 5 2 (ceilDiv1000 (t0 + 60000)), .allowed 5 1 (ceilDiv1000 (t0 + 60000)),
        .allowed 5 0 (ceilDiv1000 (t0 + 60000))]) := by
    simp [rateLimiterRun, e0, e1, e2, e3, e4]
  have e5 : rateLimiterStep (some ⟨5, t0 + 60000⟩) t5 =
      (some ⟨5, t0 + 60000⟩, .rejected (ceilDiv1000 (t0 + 60000 - t5))) := by
    simp [rateLimiterStep, RATE_LIMIT_MAX_REQUESTS,
      show ¬ (t0 + 60000 < t5) by omega]
  have e6 : rateLimiterStep (some ⟨5, t0 + 60000⟩) t6 =
      (some ⟨1, t6 + 60000⟩, .allowed 5 4 (ceilDiv1000 (t6 + 60000))) := by
    simp [rateLimiterStep, RATE_LIMIT_MAX_REQUESTS, RATE_LIMIT_WINDOW_MS,
      show t0 + 60000 < t6 by omega]
  refine ⟨?_, ?_, ?_, ?_⟩
  · rw [hrun]
  · rw [hrun, e5]
  · simp only [ceilDiv1000]
    omega
  · rw [hrun, e5, e6]

/-- Witness for C8: requests at 0..4 ms pass, 5 ms is rejected, 60001 ms sees
a fresh window. -/
theorem claim_C8_witness :
    (rateLimiterRun none [0, 1, 2, 3, 4]).2 =
      [.allowed 5 4 (ceilDiv1000 (0 + RATE_LIMIT_WINDOW_MS)),
       .allowed 5 3 (ceilDiv1000 (0 + RATE_LIMIT_WINDOW_MS)),
       .allowed 5 2 (ceilDiv1000 (0 + RATE_LIMIT_WINDOW_MS)),
       .allowed 5 1 (ceilDiv1000 (0 + RATE_LIMIT_WINDOW_MS)),
       .allowed 5 0 (ceilDiv1000 (0 + RATE_LIMIT_WINDOW_MS))] ∧
    (rateLimiterStep (rateLimiterRun none [0, 1, 2, 3, 4]).1 5).2 =
      .rejected (ceilDiv1000 (0 + RATE_LIMIT_WINDOW_MS - 5)) ∧
    ceilDiv1000 (0 + RATE_LIMIT_WINDOW_MS - 5) ≤ 60 ∧
    rateLimiterStep (rateLimiterStep (rateLimiterRun none [0, 1, 2, 3, 4]).1 5).1 60001 =
      (some { count := 1, resetTime := 60001 + RATE_LIMIT_WINDOW_MS },
       .allowed 5 4 (ceilDiv1000 (60001 + RATE_LIMIT_WINDOW_MS))) :=
  claim_C8 0 1 2 3 4 5 60001 (by omega) (by omega) (by omega) (by omega) (by omega)
    (by decide) (by decide)

end SalesforceMcp
